import Mathlib

/-!
# Stocker: a verification model of the portfolio ledger in `src/app.py`

This file gives a shallow embedding of the trading core of the Stocker
repository (`app.py`): the DynamoDB tables are lists of records, Python
`Decimal` and `float` values are exact rationals, and each data-access or
route function of the source is translated into a pure Lean function over an
explicit database state.

Numeric conventions:
* Python `Decimal` values are exact rationals; `Decimal` arithmetic uses the
  default context (28 significant digits, `ROUND_HALF_EVEN`), modelled by
  `decAdd`/`decSub`/`decMul`/`decDiv`.
* Python `float` values are the exact rationals of IEEE-754 binary64 numbers.
  `toF64` models conversion to `float` (correct rounding, round-half-even);
  `floatRepr` models `Decimal(str(f))` for a float `f`, i.e. the value of the
  shortest decimal string (at most 17 significant digits) that reads back to
  the same float.  Exponent-range boundaries (overflow, subnormals) are not
  modelled; all program values are well inside the normal range.
-/

namespace Stocker

/-- Fuel-bounded upward search: starting from `p = b ^ k`, the largest `k`
with `b ^ k ≤ q` (used with `b > 1`, `1 ≤ q`). -/
def flogUp (b q : ℚ) : ℕ → ℚ → ℤ → ℤ
  | 0, _, k => k
  | fuel + 1, p, k => if p * b ≤ q then flogUp b q fuel (p * b) (k + 1) else k

/-- Fuel-bounded downward search: starting from `p = b ^ k`, the largest `k`
with `b ^ k ≤ q` (used with `b > 1`, `0 < q < 1`). -/
def flogDown (b q : ℚ) : ℕ → ℚ → ℤ → ℤ
  | 0, _, k => k
  | fuel + 1, p, k => if q < p then flogDown b q fuel (p / b) (k - 1) else k

/-- `flog b q` is the floor of the base-`b` logarithm of a positive rational
`q` (for `b > 1`); the fuel covers any exponent magnitude up to 4000. -/
def flog (b q : ℚ) : ℤ :=
  if 1 ≤ q then flogUp b q 4000 1 0 else flogDown b q 4000 1 0

/-- `powQ b s` is `b ^ s` for a natural base and integer exponent. -/
def powQ (b : ℕ) (s : ℤ) : ℚ :=
  if 0 ≤ s then ((b ^ s.toNat : ℕ) : ℚ) else ((b ^ (-s).toNat : ℕ) : ℚ)⁻¹

/-- Round a rational to the nearest integer, ties to even
(the rounding used both by IEEE-754 binary64 and by the Python `Decimal`
default context). -/
def rhe (q : ℚ) : ℤ :=
  let f := ⌊q⌋
  let r := q - (f : ℚ)
  if r < 1 / 2 then f
  else if 1 / 2 < r then f + 1
  else if f % 2 = 0 then f else f + 1

/-- Round a rational to `d` significant decimal digits, half-even. -/
def roundSig (d : ℕ) (q : ℚ) : ℚ :=
  if q = 0 then 0
  else
    let a := if q < 0 then -q else q
    let s : ℤ := (d : ℤ) - 1 - flog 10 a
    (rhe (q * powQ 10 s) : ℚ) * powQ 10 (-s)

/-- Python `Decimal` default context: every arithmetic result is rounded to
28 significant digits, half-even. -/
def decRound (q : ℚ) : ℚ := roundSig 28 q

/-- `Decimal` addition under the default context. -/
def decAdd (a b : ℚ) : ℚ := decRound (a + b)

/-- `Decimal` subtraction under the default context. -/
def decSub (a b : ℚ) : ℚ := decRound (a - b)

/-- `Decimal` multiplication under the default context. -/
def decMul (a b : ℚ) : ℚ := decRound (a * b)

/-- `Decimal` division under the default context. -/
def decDiv (a b : ℚ) : ℚ := decRound (a / b)

/-- The exact rational value of the IEEE-754 binary64 `float` nearest to `x`
(53-bit significand, round-half-even; exponent range not bounded).  Models
Python `float(...)` applied to an `int` or `Decimal`. -/
def toF64 (x : ℚ) : ℚ :=
  if x = 0 then 0
  else
    let a := if x < 0 then -x else x
    let s : ℤ := 52 - flog 2 a
    (if x < 0 then (-1 : ℚ) else 1) * ((rhe (a * powQ 2 s) : ℚ) * powQ 2 (-s))

/-- Binary64 addition: exact sum, correctly rounded.  Models Python `+` on
floats. -/
def f64Add (a b : ℚ) : ℚ := toF64 (a + b)

/-- Binary64 multiplication: exact product, correctly rounded.  Models Python
`*` on floats. -/
def f64Mul (a b : ℚ) : ℚ := toF64 (a * b)

/-- The value of `str(f)` (equivalently `repr(f)`) for a binary64 float `f`,
re-read as an exact decimal: the shortest decimal (trying 1 to 17 significant
digits, nearest at each width) that converts back to the same float.  Models
`Decimal(str(f))` for a Python float `f`. -/
def floatRepr (f : ℚ) : ℚ :=
  match (List.range 17).findSome? (fun i =>
      let c := roundSig (i + 1) f
      if toF64 c = f then some c else none) with
  | some c => c
  | none => roundSig 17 f

/-- `Decimal(str(float(x)))`: the decimal value that survives being pushed
through a Python float and its shortest string representation. -/
def floatStrDec (x : ℚ) : ℚ := floatRepr (toF64 x)

/-!
## Data model

The four DynamoDB tables of `app.py` / `setup_dynamodb.py`, as lists of
records.  `uuid` values and `datetime.now()` timestamps are modelled by a
monotone counter `clock`; DynamoDB numbers are exact rationals.
-/

/-- The `action` field of a transaction record (`'buy'` / `'sell'`). -/
inductive Action where
  | buy
  | sell
  deriving DecidableEq, Repr

/-- A row of the `stocker_stocks` table (key: `id`). -/
structure Stock where
  id : String
  symbol : String
  name : String
  price : ℚ
  deriving DecidableEq, Repr

/-- A row of the `stocker_users` table (key: `email`). -/
structure User where
  id : String
  username : String
  email : String
  password : String
  role : String
  deriving DecidableEq, Repr

/-- A row of the `stocker_portfolio` table (key: `user_id` + `stock_id`). -/
structure PortfolioItem where
  user_id : String
  stock_id : String
  quantity : ℚ
  average_price : ℚ
  deriving DecidableEq, Repr

/-- A row of the `stocker_transactions` table (key: `id`). -/
structure Transaction where
  id : ℕ
  user_id : String
  stock_id : String
  action : Action
  quantity : ℤ
  price : ℚ
  status : String
  transaction_date : ℕ
  deriving DecidableEq, Repr

/-- The whole database state, plus the id/timestamp counter. -/
structure DB where
  users : List User
  stocks : List Stock
  transactions : List Transaction
  portfolio : List PortfolioItem
  clock : ℕ
  deriving DecidableEq, Repr

/-- Validation failures of the buy/sell handlers.  The source signals them
with a flash message and a redirect without writing anything; the spec names
them `InvalidQuantity`, `UnknownStock`, `NoHolding`, `InsufficientShares`. -/
inductive TradeError where
  | invalidQuantity
  | unknownStock
  | noHolding
  | insufficientShares
  deriving DecidableEq, Repr

/-- Python exceptions that escape a modelled function. -/
inductive PyExc where
  | nameError
  deriving DecidableEq, Repr

instance {ε α : Type} [DecidableEq ε] [DecidableEq α] : DecidableEq (Except ε α) := fun a b =>
  match a, b with
  | Except.ok x, Except.ok y =>
    if h : x = y then isTrue (by rw [h]) else isFalse (by intro hc; cases hc; exact h rfl)
  | Except.error x, Except.error y =>
    if h : x = y then isTrue (by rw [h]) else isFalse (by intro hc; cases hc; exact h rfl)
  | Except.ok _, Except.error _ => isFalse (by intro hc; cases hc)
  | Except.error _, Except.ok _ => isFalse (by intro hc; cases hc)

/-!
## Data access functions (`app.py` lines 84-311)
-/

/-- `get_user_by_email` (app.py:85): point lookup on the users table key. -/
def get_user_by_email (db : DB) (email : String) : Option User :=
  db.users.find? (fun u => u.email == email)

/-- `get_stock_by_id` (app.py:110): point lookup on the stocks table key. -/
def get_stock_by_id (db : DB) (stock_id : String) : Option Stock :=
  db.stocks.find? (fun s => s.id == stock_id)

/-- `get_user_by_id` (app.py:174): scan the users table filtering on the
`id` attribute and return the first match, if any. -/
def get_user_by_id (db : DB) (user_id : String) : Option User :=
  (db.users.filter (fun u => u.id == user_id)).head?

/-- `get_portfolio_item` (app.py:238): point lookup on the composite
portfolio key. -/
def get_portfolio_item (db : DB) (user_id stock_id : String) : Option PortfolioItem :=
  db.portfolio.find? (fun it => it.user_id == user_id && it.stock_id == stock_id)

/-- `create_transaction` (app.py:249): build a transaction record and
`put_item` it.  Both callers pass `price` as a Python float
(`float(stock['price'])`), so the stored `Decimal(str(price))` is the
float's shortest-repr decimal, `floatRepr price`.  The fresh `uuid` and
`datetime.now().isoformat()` are modelled by the clock counter. -/
def create_transaction (db : DB) (user_id stock_id : String) (action : Action)
    (quantity : ℤ) (price : ℚ) (status : String) : Transaction × DB :=
  let transaction : Transaction :=
    { id := db.clock, user_id := user_id, stock_id := stock_id, action := action,
      quantity := quantity, price := floatRepr price, status := status,
      transaction_date := db.clock }
  (transaction, { db with transactions := db.transactions ++ [transaction],
                          clock := db.clock + 1 })

/-- `update_portfolio` (app.py:268): upsert or delete the portfolio row for
`(user_id, stock_id)`.  The entry conversions `Decimal(str(...))` are the
identity on the `Decimal`/`int` values the callers pass (the one float
argument, the average price passed by `sell_stock`, is converted at the call
site below, where the source's runtime type makes the conversion happen). -/
def update_portfolio (db : DB) (user_id stock_id : String)
    (quantity average_price : ℚ) : DB :=
  match get_portfolio_item db user_id stock_id with
  | some _ =>
    if 0 < quantity then
      { db with portfolio := db.portfolio.map (fun it =>
          if it.user_id == user_id && it.stock_id == stock_id then
            { it with quantity := quantity, average_price := average_price }
          else it) }
    else
      { db with portfolio := db.portfolio.filter (fun it =>
          !(it.user_id == user_id && it.stock_id == stock_id)) }
  | none =>
    if 0 < quantity then
      { db with portfolio := db.portfolio ++
          [{ user_id := user_id, stock_id := stock_id, quantity := quantity,
             average_price := average_price }] }
    else db

/-- `send_notification` (app.py:64): returns `False` when the topic ARN is
missing; otherwise publishes and returns `True`, or catches any exception
from the publish and returns `False`.  The SNS outcome is the `publish`
argument (`none` = the publish raised). -/
def send_notification (topic_arn_present : Bool) (publish : Option Unit) : Bool :=
  if topic_arn_present = false then false
  else
    match publish with
    | some _ => true
    | none => false

/-- `get_user_transactions` (app.py:218) sort key, with `reverse=True`:
descending order on `transaction_date`. -/
def dateDesc (a b : Transaction) : Prop := b.transaction_date ≤ a.transaction_date

instance : DecidableRel dateDesc := fun a b =>
  inferInstanceAs (Decidable (b.transaction_date ≤ a.transaction_date))

instance : IsTotal Transaction dateDesc :=
  ⟨fun a b => Nat.le_total b.transaction_date a.transaction_date⟩

instance : IsTrans Transaction dateDesc :=
  ⟨fun _ _ _ hab hbc => Nat.le_trans hbc hab⟩

/-- `get_user_transactions` (app.py:218): scan the transactions table for the
user's rows, then `sort(key=transaction_date, reverse=True)` (a stable sort,
descending on the date; the attached stock details do not change the rows'
identity and are dropped here). -/
def get_user_transactions (db : DB) (user_id : String) : List Transaction :=
  (db.transactions.filter (fun t => t.user_id == user_id)).insertionSort dateDesc

/-- A portfolio row as returned by `get_user_portfolio` (app.py:201): the
stored item together with the stock details when the stock lookup succeeds
(`item['stock']` is set only in that case). -/
structure PortfolioViewItem where
  item : PortfolioItem
  stock : Option Stock
  deriving DecidableEq, Repr

/-- `get_user_portfolio` (app.py:201): the user's portfolio rows, each with
its stock resolved from the stocks table when possible. -/
def get_user_portfolio (db : DB) (user_id : String) : List PortfolioViewItem :=
  (db.portfolio.filter (fun it => it.user_id == user_id)).map
    (fun it => { item := it, stock := get_stock_by_id db it.stock_id })

/-!
## Trade handlers (`app.py` lines 525-696)

The POST branches of the `buy_stock` and `sell_stock` routes, for an
already-authenticated trader `user`.  `quantity` is the form field after
`int(...)`; `publish` is the SNS outcome fed to `send_notification`.
-/

/-- `buy_stock` (app.py:525-614), POST path.  Order of the source: resolve
the stock (reject if absent), reject non-positive quantity, create the
transaction record (price `float(stock['price'])`), then update the
portfolio: with an existing entry, compute the weighted average cost with
`Decimal` context arithmetic and call `update_portfolio` with
`quantity=Decimal(str(quantity))` — the newly bought quantity, while the
computed `total_quantity` goes unused; with no entry, store the bought
quantity at the stock's price.  Finally notify, best-effort. -/
def buy_stock (db : DB) (user : User) (stock_id : String) (quantity : ℤ)
    (publish : Option Unit) : Except TradeError Unit × DB :=
  match get_stock_by_id db stock_id with
  | none => (Except.error TradeError.unknownStock, db)
  | some stock =>
    if quantity ≤ 0 then (Except.error TradeError.invalidQuantity, db)
    else
      let created := create_transaction db user.id stock_id Action.buy quantity
        (toF64 stock.price) "completed"
      let db1 := created.2
      let db2 :=
        match get_portfolio_item db1 user.id stock_id with
        | some portfolio_entry =>
          let quantity_decimal : ℚ := (quantity : ℚ)
          let portfolio_quantity := portfolio_entry.quantity
          let portfolio_avg_price := portfolio_entry.average_price
          let stock_price := stock.price
          let total_value := decAdd (decMul portfolio_quantity portfolio_avg_price)
            (decMul quantity_decimal stock_price)
          let total_quantity := decAdd portfolio_quantity quantity_decimal
          let avg_price := decDiv total_value total_quantity
          update_portfolio db1 user.id stock_id quantity_decimal avg_price
        | none =>
          update_portfolio db1 user.id stock_id (quantity : ℚ) stock.price
      let _ := send_notification true publish
      (Except.ok (), db2)

/-- `sell_stock` (app.py:616-696), POST path.  Order of the source: resolve
the stock (reject if absent), reject when the user holds no portfolio entry,
reject non-positive quantity, reject `quantity > portfolio_entry['quantity']`,
create the transaction record, then call `update_portfolio` with the
remaining quantity and, when shares remain, the carried-forward average price
pushed through `float(...)` and back (`Decimal(str(float(p)))`), else `0`.
Finally notify, best-effort. -/
def sell_stock (db : DB) (user : User) (stock_id : String) (quantity : ℤ)
    (publish : Option Unit) : Except TradeError Unit × DB :=
  match get_stock_by_id db stock_id with
  | none => (Except.error TradeError.unknownStock, db)
  | some stock =>
    match get_portfolio_item db user.id stock_id with
    | none => (Except.error TradeError.noHolding, db)
    | some portfolio_entry =>
      if quantity ≤ 0 then (Except.error TradeError.invalidQuantity, db)
      else if portfolio_entry.quantity < (quantity : ℚ) then
        (Except.error TradeError.insufficientShares, db)
      else
        let created := create_transaction db user.id stock_id Action.sell quantity
          (toF64 stock.price) "completed"
        let db1 := created.2
        let remaining_quantity := decSub portfolio_entry.quantity (quantity : ℚ)
        let average_price : ℚ :=
          if 0 < remaining_quantity then floatStrDec portfolio_entry.average_price
          else 0
        let db2 := update_portfolio db1 user.id stock_id remaining_quantity average_price
        let _ := send_notification true publish
        (Except.ok (), db2)

/-- `delete_trader_by_id` (app.py:124-154).  After resolving the user and its
email, the source issues `user_table.delete_item(Key={'email': trader_id})` —
keyed on the *trader id* in the email field — and then immediately iterates
over `portfolio_response`, a local variable that is only assigned further
down, so Python raises an unhandled `NameError` (`UnboundLocalError`) at that
point and the portfolio loop and the final `return True` are never reached. -/
def delete_trader_by_id (db : DB) (trader_id : String) : Except PyExc Bool × DB :=
  match get_user_by_id db trader_id with
  | none => (Except.ok false, db)
  | some user =>
    if user.email = "" then (Except.ok false, db)
    else
      let db1 := { db with users := db.users.filter (fun u => !(u.email == trader_id)) }
      (Except.error PyExc.nameError, db1)

/-!
## Valuation (`app.py` service01 lines 430-437, service05 lines 716-724)
-/

/-- The `service05` portfolio-value loop (app.py:717-721): over the user's
portfolio rows, skip rows whose stock details are missing, and accumulate
`float(quantity) * float(price)` into a float running total. -/
def service05_total_value (db : DB) (user_id : String) : ℚ :=
  (get_user_portfolio db user_id).foldl (fun acc v =>
    match v.stock with
    | some stock => f64Add acc (f64Mul (toF64 v.item.quantity) (toF64 stock.price))
    | none => acc) 0

/-- The `service01` per-trader portfolio-value loop (app.py:432-437): same
accumulation, but `item['stock']['price']` is read without a guard, so a row
with no resolved stock raises an uncaught `KeyError`, modelled as `none`. -/
def service01_portfolio_value (db : DB) (user_id : String) : Option ℚ :=
  (get_user_portfolio db user_id).foldl (fun acc v =>
    match acc, v.stock with
    | some a, some stock => some (f64Add a (f64Mul (toF64 v.item.quantity) (toF64 stock.price)))
    | _, _ => none) (some 0)

/-- Modelled from the spec (§4.5): the valuation as the exact sum over the
user's stored positions of quantity times the stock's current price
(positions whose stock id does not resolve contribute nothing). -/
def specExactValuation (db : DB) (user_id : String) : ℚ :=
  ((db.portfolio.filter (fun it => it.user_id == user_id)).map (fun it =>
    match get_stock_by_id db it.stock_id with
    | some stock => it.quantity * stock.price
    | none => 0)).sum

/-- Modelled from the spec (§4.5), amended for the code's float arithmetic:
the same sum evaluated in binary64, rounding each conversion, product and
partial sum. -/
def specFloatValuation (db : DB) (user_id : String) : ℚ :=
  (db.portfolio.filter (fun it => it.user_id == user_id)).foldl (fun acc it =>
    match get_stock_by_id db it.stock_id with
    | some stock => f64Add acc (f64Mul (toF64 it.quantity) (toF64 stock.price))
    | none => acc) 0

/-!
## Reachability of portfolio states
-/

/-- The stored-portfolio invariant of the spec (§3, §8): every stored
position row has positive quantity — never negative, and never zero. -/
def PortfolioPositive (db : DB) : Prop := ∀ it ∈ db.portfolio, 0 < it.quantity

/-- States reachable from `db0` by any sequence of buy and sell requests
(with arbitrary users, stocks, quantities and notification outcomes). -/
inductive Reachable : DB → DB → Prop where
  | refl (db : DB) : Reachable db db
  | buy (db0 db : DB) (user : User) (stock_id : String) (q : ℤ)
      (publish : Option Unit) :
      Reachable db0 db → Reachable db0 (buy_stock db user stock_id q publish).2
  | sell (db0 db : DB) (user : User) (stock_id : String) (q : ℤ)
      (publish : Option Unit) :
      Reachable db0 db → Reachable db0 (sell_stock db user stock_id q publish).2

/-!
## Concrete fixtures used in closed theorems and witnesses
-/

def traderOne : User :=
  { id := "u1", username := "Trader One", email := "t1@example.com",
    password := "pw", role := "trader" }

def traderTwo : User :=
  { id := "u2", username := "Trader Two", email := "t2@example.com",
    password := "pw", role := "trader" }

def stock100 : Stock := { id := "X", symbol := "XS", name := "X Corp", price := 100 }

def stock130 : Stock := { id := "X", symbol := "XS", name := "X Corp", price := 130 }

def stockDime : Stock := { id := "Y", symbol := "YS", name := "Y Corp", price := 1 / 10 }

/-- A 28-significant-digit decimal, as the `Decimal` default context produces
(for instance `4/3` rounded to context precision by a division). -/
def dec28 : ℚ := (1333333333333333333333333333 : ℚ) / 10 ^ 27

/-- What `dec28` becomes after `Decimal(str(float(dec28)))`: the shortest
17-digit representation of the nearest binary64 float. -/
def dec28rt : ℚ := (13333333333333333 : ℚ) / 10 ^ 16

/-- Two traders, one stock at price 100, empty portfolio and log. -/
def baseDB : DB :=
  { users := [traderOne, traderTwo], stocks := [stock100], transactions := [],
    portfolio := [], clock := 0 }

/-- Trader `u1` holds 10 shares of `X` at average cost 100; `X` quotes 130. -/
def heldDB : DB :=
  { users := [traderOne], stocks := [stock130], transactions := [],
    portfolio := [{ user_id := "u1", stock_id := "X", quantity := 10, average_price := 100 }],
    clock := 7 }

/-- Trader `u1` holds 3 shares of `X` at the 28-digit average cost `dec28`. -/
def held28DB : DB :=
  { users := [traderOne], stocks := [stock130], transactions := [],
    portfolio := [{ user_id := "u1", stock_id := "X", quantity := 3, average_price := dec28 }],
    clock := 0 }

/-- Trader `u1` holds 3 shares of a stock whose current quote is the
28-digit decimal `dec28`. -/
def quote28DB : DB :=
  { users := [traderOne],
    stocks := [{ id := "X", symbol := "XS", name := "X Corp", price := dec28 }],
    transactions := [],
    portfolio := [{ user_id := "u1", stock_id := "X", quantity := 3, average_price := 100 }],
    clock := 0 }

/-- Trader `u1` holds 1 share of a stock quoted at the decimal `0.1`. -/
def dimeDB : DB :=
  { users := [traderOne], stocks := [stockDime], transactions := [],
    portfolio := [{ user_id := "u1", stock_id := "Y", quantity := 1, average_price := 1 / 10 }],
    clock := 0 }

/-!
## Helper lemmas
-/

theorem create_transaction_portfolio (db : DB) (user_id stock_id : String)
    (action : Action) (quantity : ℤ) (price : ℚ) (status : String) :
    (create_transaction db user_id stock_id action quantity price status).2.portfolio =
      db.portfolio := rfl

theorem create_transaction_transactions (db : DB) (user_id stock_id : String)
    (action : Action) (quantity : ℤ) (price : ℚ) (status : String) :
    (create_transaction db user_id stock_id action quantity price status).2.transactions =
      db.transactions ++
        [(create_transaction db user_id stock_id action quantity price status).1] := rfl

theorem get_portfolio_item_ext (db db2 : DB) (user_id stock_id : String)
    (h : db2.portfolio = db.portfolio) :
    get_portfolio_item db2 user_id stock_id = get_portfolio_item db user_id stock_id := by
  simp only [get_portfolio_item, h]

theorem decRound_zero : decRound 0 = 0 := by
  simp [decRound, roundSig]

theorem find?_append_of_none {α : Type} (p : α → Bool) (l1 l2 : List α)
    (h : l1.find? p = none) : (l1 ++ l2).find? p = l2.find? p := by
  induction l1 with
  | nil => rfl
  | cons a l ih =>
    by_cases hpa : p a = true
    · rw [List.find?_cons_of_pos _ hpa] at h
      cases h
    · rw [List.find?_cons_of_neg _ hpa] at h
      rw [List.cons_append, List.find?_cons_of_neg _ hpa]
      exact ih h

theorem find?_filter_not {α : Type} (p : α → Bool) (l : List α) :
    (l.filter (fun x => !(p x))).find? p = none := by
  rw [List.find?_eq_none]
  intro x hx
  rcases List.mem_filter.mp hx with ⟨_, hpx⟩
  simp only [Bool.not_eq_true'] at hpx
  simp [hpx]

/-- Every write path of `update_portfolio` stores a row only when its
quantity is positive, so per-row positivity is preserved unconditionally. -/
theorem update_portfolio_preserves_pos (db : DB) (user_id stock_id : String)
    (quantity average_price : ℚ)
    (h : ∀ it ∈ db.portfolio, 0 < it.quantity) :
    ∀ it ∈ (update_portfolio db user_id stock_id quantity average_price).portfolio,
      0 < it.quantity := by
  intro it hit
  unfold update_portfolio at hit
  split at hit
  · split at hit
    · simp only [List.mem_map] at hit
      obtain ⟨x, hx, hfx⟩ := hit
      by_cases hk : (x.user_id == user_id && x.stock_id == stock_id) = true
      · rw [if_pos hk] at hfx
        subst hfx
        assumption
      · rw [if_neg hk] at hfx
        subst hfx
        exact h x hx
    · simp only [List.mem_filter] at hit
      exact h it hit.1
  · split at hit
    · simp only [List.mem_append, List.mem_singleton] at hit
      rcases hit with hmem | rfl
      · exact h it hmem
      · assumption
    · exact h it hit

/-!
## Claim theorems
-/

theorem buy_stock_preserves_pos (db : DB) (user : User) (stock_id : String)
    (q : ℤ) (publish : Option Unit) (h : PortfolioPositive db) :
    PortfolioPositive (buy_stock db user stock_id q publish).2 := by
  unfold buy_stock
  split
  · exact h
  · split
    · exact h
    · dsimp only
      split
      · exact update_portfolio_preserves_pos _ _ _ _ _ h
      · exact update_portfolio_preserves_pos _ _ _ _ _ h

theorem sell_stock_preserves_pos (db : DB) (user : User) (stock_id : String)
    (q : ℤ) (publish : Option Unit) (h : PortfolioPositive db) :
    PortfolioPositive (sell_stock db user stock_id q publish).2 := by
  unfold sell_stock
  split
  · exact h
  · split
    · exact h
    · split
      · exact h
      · split
        · exact h
        · exact update_portfolio_preserves_pos _ _ _ _ _ h

attribute [local semireducible] Rat.add Rat.sub Rat.mul Rat.inv Rat.ofScientific

set_option maxRecDepth 8000

/-- Claim C4: starting from any state satisfying the portfolio invariant
(the empty store and the seeded store both do), every state reachable by any
sequence of buy and sell operations keeps every stored position row at
strictly positive quantity: quantities are never negative, and a
quantity-zero row is never stored — it is deleted instead. -/
theorem reachable_positions_positive (db0 db : DB) (h : Reachable db0 db)
    (h0 : PortfolioPositive db0) : PortfolioPositive db := by
  induction h with
  | refl => exact h0
  | buy db1 user stock_id q publish _ ih =>
    exact buy_stock_preserves_pos db1 user stock_id q publish ih
  | sell db1 user stock_id q publish _ ih =>
    exact sell_stock_preserves_pos db1 user stock_id q publish ih

/-- Claim C4 witness: after a buy of 10 and a partial sell of 4 from the base
state, every stored row still has positive quantity. -/
theorem reachable_positions_positive_witness :
    PortfolioPositive
      (sell_stock (buy_stock baseDB traderOne "X" 10 none).2 traderOne "X" 4 none).2 :=
  reachable_positions_positive baseDB _
    (Reachable.sell _ _ traderOne "X" 4 none
      (Reachable.buy _ _ traderOne "X" 10 none (Reachable.refl baseDB)))
    (by intro it hit; exact absurd hit (List.not_mem_nil it))

/-- Claim C1 (code bug): buying 5 more shares of `X` at price 130 on top of
a held position of 10 at average cost 100 stores quantity 5 — the newly
bought quantity, because `buy_stock` passes `quantity` instead of its own
`total_quantity` to `update_portfolio` — together with the correctly blended
average cost 110; no stored row carries the claimed quantity `10 + 5`. -/
theorem buy_existing_overwrites_quantity :
    get_portfolio_item (buy_stock heldDB traderOne "X" 5 none).2 "u1" "X" =
      some { user_id := "u1", stock_id := "X", quantity := 5, average_price := 110 } ∧
    ∀ it ∈ (buy_stock heldDB traderOne "X" 5 none).2.portfolio,
      ¬ it.quantity = 10 + 5 := by
  decide

/-- Claim C2 (code bug): a partial sell of 1 share from a position of 3 whose
average cost is the 28-significant-digit decimal `dec28` stores the correct
remaining quantity 2, but the average cost comes back as `dec28rt` — the
value after `Decimal(str(float(P0)))` — which differs from the carried
forward `P0 = dec28`. -/
theorem sell_partial_reprices_average_cost :
    get_portfolio_item (sell_stock held28DB traderOne "X" 1 none).2 "u1" "X" =
      some { user_id := "u1", stock_id := "X", quantity := 2, average_price := dec28rt } ∧
    ¬ dec28rt = dec28 := by
  decide

/-- Claim C5 counterexample: selling exactly the 3 held shares of a stock
quoted at the 28-digit decimal `dec28` deletes the position, but the single
appended transaction records the price `dec28rt` — the float round-trip of
the quote — so no transaction carrying the execution price `dec28` itself is
appended, contradicting the claim at this input. -/
theorem sell_exact_price_roundtrip_cex :
    (sell_stock quote28DB traderOne "X" 3 none).2.transactions.map Transaction.price =
      [dec28rt] ∧ ¬ dec28rt = dec28 := by
  decide

/-- Claim C7 counterexample: with a single position of 1 share of a stock
quoted at the decimal `0.1`, the valuation computed by the `service05` loop
is the binary64 rounding of `0.1`, which is not the exact sum
`quantity × price = 0.1`. -/
theorem valuation_not_exact_sum_cex :
    ¬ service05_total_value dimeDB "u1" = specExactValuation dimeDB "u1" := by
  decide

/-- Claim C3: every validation failure of the buy/sell handlers — non-positive
quantity (`InvalidQuantity`), unknown stock (`UnknownStock`), sell with no
existing position (`NoHolding`), sell of more than the held quantity
(`InsufficientShares`) — returns the corresponding error with the database
unchanged: no transaction is appended and no portfolio row is created,
modified or deleted, every check happening before any write. -/
theorem validation_failure_no_side_effects (db : DB) (user : User) (stock_id : String)
    (q : ℤ) (publish : Option Unit) :
    (get_stock_by_id db stock_id = none →
      buy_stock db user stock_id q publish = (Except.error TradeError.unknownStock, db) ∧
      sell_stock db user stock_id q publish = (Except.error TradeError.unknownStock, db)) ∧
    (∀ st, get_stock_by_id db stock_id = some st → q ≤ 0 →
      buy_stock db user stock_id q publish = (Except.error TradeError.invalidQuantity, db)) ∧
    (∀ st, get_stock_by_id db stock_id = some st →
      get_portfolio_item db user.id stock_id = none →
      sell_stock db user stock_id q publish = (Except.error TradeError.noHolding, db)) ∧
    (∀ st pe, get_stock_by_id db stock_id = some st →
      get_portfolio_item db user.id stock_id = some pe → q ≤ 0 →
      sell_stock db user stock_id q publish = (Except.error TradeError.invalidQuantity, db)) ∧
    (∀ st pe, get_stock_by_id db stock_id = some st →
      get_portfolio_item db user.id stock_id = some pe → 0 < q →
      pe.quantity < (q : ℚ) →
      sell_stock db user stock_id q publish =
        (Except.error TradeError.insufficientShares, db)) := by
  refine ⟨?_, ?_, ?_, ?_, ?_⟩
  · intro h
    exact ⟨by simp only [buy_stock, h], by simp only [sell_stock, h]⟩
  · intro st hs hq
    simp only [buy_stock, hs, if_pos hq]
  · intro st hs hp
    simp only [sell_stock, hs, hp]
  · intro st pe hs hp hq
    simp only [sell_stock, hs, hp, if_pos hq]
  · intro st pe hs hp hq hins
    simp only [sell_stock, hs, hp, if_neg (not_le.mpr hq), if_pos hins]

/-- Claim C3 witness: concrete rejected requests, one per validation error,
each leaving the database untouched. -/
theorem validation_failure_no_side_effects_witness :
    buy_stock baseDB traderOne "ZZ" 5 none = (Except.error TradeError.unknownStock, baseDB) ∧
    buy_stock baseDB traderOne "X" 0 none = (Except.error TradeError.invalidQuantity, baseDB) ∧
    sell_stock baseDB traderOne "X" 5 none = (Except.error TradeError.noHolding, baseDB) ∧
    sell_stock heldDB traderOne "X" (-2) none = (Except.error TradeError.invalidQuantity, heldDB) ∧
    sell_stock heldDB traderOne "X" 11 none = (Except.error TradeError.insufficientShares, heldDB) :=
  ⟨((validation_failure_no_side_effects baseDB traderOne "ZZ" 5 none).1 (by decide)).1,
   (validation_failure_no_side_effects baseDB traderOne "X" 0 none).2.1 stock100
     (by decide) (by decide),
   (validation_failure_no_side_effects baseDB traderOne "X" 5 none).2.2.1 stock100
     (by decide) (by decide),
   (validation_failure_no_side_effects heldDB traderOne "X" (-2) none).2.2.2.1 stock130
     { user_id := "u1", stock_id := "X", quantity := 10, average_price := 100 }
     (by decide) (by decide) (by decide),
   (validation_failure_no_side_effects heldDB traderOne "X" 11 none).2.2.2.2 stock130
     { user_id := "u1", stock_id := "X", quantity := 10, average_price := 100 }
     (by decide) (by decide) (by decide) (by decide)⟩

/-- Claim C6: a buy of positive quantity `q` of a known stock by a user with
no existing position for it stores a new position with quantity `q` and
average cost equal to the stock's current price, the price the buy executes
at. -/
theorem buy_without_position_creates (db : DB) (user : User) (stock_id : String)
    (q : ℤ) (publish : Option Unit) (st : Stock)
    (hs : get_stock_by_id db stock_id = some st)
    (hp : get_portfolio_item db user.id stock_id = none)
    (hq : 0 < q) :
    get_portfolio_item (buy_stock db user stock_id q publish).2 user.id stock_id =
      some { user_id := user.id, stock_id := stock_id, quantity := (q : ℚ),
             average_price := st.price } := by
  have hcp := create_transaction_portfolio db user.id stock_id Action.buy q
    (toF64 st.price) "completed"
  have hp1 : get_portfolio_item
      (create_transaction db user.id stock_id Action.buy q (toF64 st.price) "completed").2
      user.id stock_id = none :=
    (get_portfolio_item_ext db _ user.id stock_id hcp).trans hp
  have hqq : (0 : ℚ) < (q : ℚ) := by exact_mod_cast hq
  simp only [buy_stock, hs, if_neg (not_le.mpr hq), hp1, update_portfolio, if_pos hqq]
  simp only [get_portfolio_item] at hp ⊢
  rw [hcp, find?_append_of_none _ _ _ hp]
  simp [List.find?_cons]

/-- Claim C6 witness: scenario A, buying 10 shares at price 100 with no prior
position stores the position with quantity 10 and average cost 100. -/
theorem buy_without_position_creates_witness :
    get_portfolio_item (buy_stock baseDB traderOne "X" 10 none).2 "u1" "X" =
      some { user_id := "u1", stock_id := "X", quantity := (10 : ℚ),
             average_price := stock100.price } :=
  buy_without_position_creates baseDB traderOne "X" 10 none stock100
    (by decide) (by decide) (by decide)

/-- Claim C8: listing a user's transactions returns exactly that user's
transaction records (a permutation of the filtered log), sorted by
`transaction_date` in descending order — most recent first. -/
theorem user_transactions_sorted_descending (db : DB) (user_id : String) :
    (get_user_transactions db user_id).Perm
      (db.transactions.filter (fun t => t.user_id == user_id)) ∧
    List.Sorted dateDesc (get_user_transactions db user_id) :=
  ⟨List.perm_insertionSort dateDesc _, List.sorted_insertionSort dateDesc _⟩

/-- Claim C9: the outcome of the SNS publish does not influence a buy or a
sell — result and final state are identical whether the publish succeeds or
raises — and `send_notification` itself returns a boolean in both cases,
swallowing the exception. -/
theorem notification_outcome_irrelevant (db : DB) (user : User) (stock_id : String)
    (q : ℤ) (p1 p2 : Option Unit) :
    buy_stock db user stock_id q p1 = buy_stock db user stock_id q p2 ∧
    sell_stock db user stock_id q p1 = sell_stock db user stock_id q p2 ∧
    send_notification true none = false ∧
    send_notification true (some ()) = true :=
  ⟨rfl, rfl, rfl, rfl⟩

/-- Claim C5 (amended): selling exactly the held quantity is allowed, not
rejected: the position row for `(user, stock)` is deleted from the store and
a transaction with action SELL, the sold quantity `q`, and the execution
price as the code records it — the stock's quote pushed through a Python
float and its string form, `floatStrDec` — is appended.  The recorded price
equals the execution price itself exactly when the float round-trip
preserves the quote. -/
theorem sell_exact_deletes_position (db : DB) (user : User) (stock_id : String)
    (q : ℤ) (publish : Option Unit) (st : Stock) (pe : PortfolioItem)
    (hs : get_stock_by_id db stock_id = some st)
    (hp : get_portfolio_item db user.id stock_id = some pe)
    (hq : 0 < q) (hall : (q : ℚ) = pe.quantity) :
    (sell_stock db user stock_id q publish).1 = Except.ok () ∧
    get_portfolio_item (sell_stock db user stock_id q publish).2 user.id stock_id = none ∧
    (sell_stock db user stock_id q publish).2.transactions =
      db.transactions ++
        [{ id := db.clock, user_id := user.id, stock_id := stock_id,
           action := Action.sell, quantity := q, price := floatStrDec st.price,
           status := "completed", transaction_date := db.clock }] := by
  have hcp := create_transaction_portfolio db user.id stock_id Action.sell q
    (toF64 st.price) "completed"
  have hp1 : get_portfolio_item
      (create_transaction db user.id stock_id Action.sell q (toF64 st.price) "completed").2
      user.id stock_id = some pe :=
    (get_portfolio_item_ext db _ user.id stock_id hcp).trans hp
  have hno : ¬ pe.quantity < (q : ℚ) := by
    rw [← hall]
    exact lt_irrefl _
  have hrem : decSub pe.quantity (q : ℚ) = 0 := by
    rw [← hall]
    unfold decSub
    rw [sub_self]
    exact decRound_zero
  have hzero : ¬ (0 : ℚ) < 0 := lt_irrefl 0
  simp only [sell_stock, hs, hp, if_neg (not_le.mpr hq), if_neg hno, hrem,
    update_portfolio, hp1, if_neg hzero]
  refine ⟨by trivial, ?_, by trivial⟩
  simp only [get_portfolio_item]
  exact find?_filter_not _ _

/-- Claim C5 witness: scenario C on the held fixture — selling all 10 held
shares succeeds, deletes the position row, and appends the SELL transaction
with quantity 10 at the recorded price. -/
theorem sell_exact_deletes_position_witness :
    (sell_stock heldDB traderOne "X" 10 none).1 = Except.ok () ∧
    get_portfolio_item (sell_stock heldDB traderOne "X" 10 none).2
      traderOne.id "X" = none ∧
    (sell_stock heldDB traderOne "X" 10 none).2.transactions =
      heldDB.transactions ++
        [{ id := heldDB.clock, user_id := traderOne.id, stock_id := "X",
           action := Action.sell, quantity := 10, price := floatStrDec stock130.price,
           status := "completed", transaction_date := heldDB.clock }] :=
  sell_exact_deletes_position heldDB traderOne "X" 10 none stock130
    { user_id := "u1", stock_id := "X", quantity := 10, average_price := 100 }
    (by decide) (by decide) (by decide) (by decide)

theorem service01_fold_some (l : List PortfolioViewItem)
    (h : ∀ v ∈ l, v.stock.isSome) (a : ℚ) :
    l.foldl (fun acc v =>
      match acc, v.stock with
      | some b, some stock =>
        some (f64Add b (f64Mul (toF64 v.item.quantity) (toF64 stock.price)))
      | _, _ => none) (some a) =
      some (l.foldl (fun acc v =>
        match v.stock with
        | some stock => f64Add acc (f64Mul (toF64 v.item.quantity) (toF64 stock.price))
        | none => acc) a) := by
  induction l generalizing a with
  | nil => rfl
  | cons v l ih =>
    obtain ⟨stock, hstock⟩ := Option.isSome_iff_exists.mp (h v (List.mem_cons_self v l))
    simp only [List.foldl_cons, hstock]
    exact ih (fun w hw => h w (List.mem_cons_of_mem v hw)) _

/-- Claim C7 (amended): the valuation the code computes is the binary64
evaluation of the spec's sum — each quantity and price converted to float and
every product and partial sum rounded — rather than the exact sum; it is `0`
for a user with no stored positions, and the admin path (`service01`)
computes the same value whenever every position's stock resolves. -/
theorem valuation_float_fold (db : DB) (user_id : String) :
    service05_total_value db user_id = specFloatValuation db user_id ∧
    (db.portfolio.filter (fun it => it.user_id == user_id) = [] →
      service05_total_value db user_id = 0) ∧
    ((∀ it ∈ db.portfolio.filter (fun it => it.user_id == user_id),
        (get_stock_by_id db it.stock_id).isSome) →
      service01_portfolio_value db user_id = some (service05_total_value db user_id)) := by
  refine ⟨?_, ?_, ?_⟩
  · simp only [service05_total_value, get_user_portfolio, specFloatValuation,
      List.foldl_map]
  · intro h
    simp only [service05_total_value, get_user_portfolio, h, List.map_nil,
      List.foldl_nil]
  · intro h
    have hv : ∀ v ∈ get_user_portfolio db user_id, v.stock.isSome := by
      intro v hvmem
      simp only [get_user_portfolio, List.mem_map] at hvmem
      obtain ⟨it, hit, rfl⟩ := hvmem
      exact h it hit
    exact service01_fold_some _ hv 0

/-- Claim C7 witness: on the base state, where the user holds nothing, the
computed valuation matches the float fold, equals `0`, and agrees with the
admin path. -/
theorem valuation_float_fold_witness :
    service05_total_value baseDB "u1" = specFloatValuation baseDB "u1" ∧
    service05_total_value baseDB "u1" = 0 ∧
    service01_portfolio_value baseDB "u1" = some (service05_total_value baseDB "u1") :=
  ⟨(valuation_float_fold baseDB "u1").1,
   (valuation_float_fold baseDB "u1").2.1 (by decide),
   (valuation_float_fold baseDB "u1").2.2 (by decide)⟩

/-- Claim C10: for a trader id that resolves to a stored user having an
email, `delete_trader_by_id` deletes the users-table row keyed on the trader
id in the email field and then raises `NameError` (reading
`portfolio_response` before assignment): the portfolio is untouched and the
call never returns `True`. -/
theorem delete_trader_name_error (db : DB) (trader_id : String) (u : User)
    (hu : get_user_by_id db trader_id = some u)
    (he : ¬ u.email = "") :
    delete_trader_by_id db trader_id =
      (Except.error PyExc.nameError,
        { db with users := db.users.filter (fun x => !(x.email == trader_id)) }) ∧
    (delete_trader_by_id db trader_id).2.portfolio = db.portfolio ∧
    (delete_trader_by_id db trader_id).1 ≠ Except.ok true := by
  have h1 : delete_trader_by_id db trader_id =
      (Except.error PyExc.nameError,
        { db with users := db.users.filter (fun x => !(x.email == trader_id)) }) := by
    simp only [delete_trader_by_id, hu, if_neg he]
  refine ⟨h1, by rw [h1], by rw [h1]; intro hc; cases hc⟩

/-- Claim C10 witness: deleting trader `u1` from the base database raises the
modelled `NameError`, leaves the portfolio alone, and does not return
`True`. -/
theorem delete_trader_name_error_witness :
    delete_trader_by_id baseDB "u1" =
      (Except.error PyExc.nameError,
        { baseDB with users := baseDB.users.filter (fun x => !(x.email == "u1")) }) ∧
    (delete_trader_by_id baseDB "u1").2.portfolio = baseDB.portfolio ∧
    (delete_trader_by_id baseDB "u1").1 ≠ Except.ok true :=
  delete_trader_name_error baseDB "u1" traderOne (by decide) (by decide)

end Stocker
